import Mathlib

/-!
# Verification of the `rustc-plugin` cross-check instrumentation engine

Shallow embedding of `src/cross-checks/rust-checks/rustc-plugin/src/lib.rs`.
Pure data is modelled by inductive types; the mutable `Cell`/`RefCell` state
(the per-scope field index, the pending-item queue, the emitted C-hash-function
set, the macro-expansion scope map) is threaded explicitly.

The crate's sibling modules `config.rs` and `xcheck_util.rs` (declared with
`mod config;` / `mod xcheck_util;`) are not part of the provided sources;
the handful of operations taken from them are modelled from the spec and
marked as such in their doc comments.
-/

namespace XPlugin

/-- Cross-check action type, mirroring `xcfg::XCheckType` exactly as it is
matched in `fold_struct_field` (Default, None, Disabled, Djb2, Fixed,
AsType, Custom). -/
inductive XCheckType where
  | Default
  | None
  | Disabled
  | Djb2 (s : String)
  | Fixed (id : Nat)
  | AsType (ty : String)
  | Custom (expr : String)
deriving DecidableEq

/-- Field identity, mirroring `xcfg::FieldIndex`: either a declared name or a
positional index. -/
inductive FieldIndex where
  | Str (s : String)
  | Int (i : Nat)
deriving DecidableEq

/-- `xcfg::FieldIndex::from_str`: the `xcfg` crate is an external collaborator;
an identifier made of digits becomes a positional index, anything else a name
(digit parsing spelled out over the character list so that it computes). -/
def FieldIndex.from_str (s : String) : FieldIndex :=
  if s.data ≠ [] ∧ s.data.all Char.isDigit then
    FieldIndex.Int (s.data.foldl (fun n c => n * 10 + (c.toNat - 48)) 0)
  else FieldIndex.Str s

/-- Tag attached to an emitted cross-check, mirroring `xcfg::XCheckTag` as
matched in `build_extra_xchecks`. -/
inductive XCheckTag where
  | Unknown
  | FunctionEntry
  | FunctionExit
  | FunctionArg
  | FunctionReturn
deriving DecidableEq

/-- An extra custom cross-check (`xcfg::ExtraXCheck`): a custom expression
string plus the tag it is emitted under. -/
structure ExtraXCheck where
  custom : String
  tag : XCheckTag
deriving DecidableEq

/-- The inherited part of a scope's configuration
(`config::InheritedCheckConfig`): enabled flag, optional hasher type
overrides, and the entry/exit/all-args/return directives.
Modelled from the spec: `config.rs` is not among the provided sources;
the field list follows spec section 3 ("Inherited Configuration"). -/
structure InheritedCheckConfig where
  enabled : Bool
  ahasher : Option String
  shasher : Option String
  entry : XCheckType
  exit : XCheckType
  all_args : XCheckType
  ret : XCheckType
deriving DecidableEq

/-- Modelled from the spec: default inherited configuration — checking
enabled, no hasher overrides, every directive left at `Default`
(spec section 8, scenario 1: "entry/exit/args/ret all enabled by default"). -/
def InheritedCheckConfig.initial : InheritedCheckConfig :=
  { enabled := true, ahasher := none, shasher := none,
    entry := XCheckType.Default, exit := XCheckType.Default,
    all_args := XCheckType.Default, ret := XCheckType.Default }

/-- Function-specific configuration (`config::FunctionCheckConfig`):
per-argument overrides keyed by argument identity, plus the extra
entry/exit cross-check expressions.
Modelled from the spec: `config.rs` is not among the provided sources. -/
structure FunctionCheckConfig where
  args : List (FieldIndex × XCheckType)
  entry_extra : List ExtraXCheck
  exit_extra : List ExtraXCheck
deriving DecidableEq

/-- Structure-specific configuration (`config::StructCheckConfig`):
per-field directives keyed by field identity, optional custom full-hash
expression and optional field-hasher override.
Modelled from the spec: `config.rs` is not among the provided sources. -/
structure StructCheckConfig where
  fields : List (FieldIndex × XCheckType)
  custom_hash : Option String
  field_hasher : Option String
deriving DecidableEq

/-- A scope's resolved check configuration (`config::ScopeCheckConfig`):
the inherited record plus the item-specific function/struct parts
(`function_config()` / `struct_config()` accessors in the source).
Modelled from the spec: `config.rs` is not among the provided sources. -/
structure ScopeCheckConfig where
  inherited : InheritedCheckConfig
  function_cfg : FunctionCheckConfig
  struct_cfg : StructCheckConfig
deriving DecidableEq

def FunctionCheckConfig.initial : FunctionCheckConfig :=
  { args := [], entry_extra := [], exit_extra := [] }

def StructCheckConfig.initial : StructCheckConfig :=
  { fields := [], custom_hash := none, field_hasher := none }

/-- Modelled from the spec: `config::ScopeCheckConfig::new()` — the pristine
configuration used at a genuine top-level invocation. -/
def ScopeCheckConfig.new : ScopeCheckConfig :=
  { inherited := InheritedCheckConfig.initial,
    function_cfg := FunctionCheckConfig.initial,
    struct_cfg := StructCheckConfig.initial }

/-- The directive fields a single `#[cross_check(...)]` attribute or a single
external per-item entry may set on the inherited configuration; `none`
means the field is absent from that source. -/
structure PartialItemConfig where
  enabled : Option Bool := none
  ahasher : Option String := none
  shasher : Option String := none
  entry : Option XCheckType := none
  exit : Option XCheckType := none
  all_args : Option XCheckType := none
  ret : Option XCheckType := none
deriving DecidableEq

def PartialItemConfig.empty : PartialItemConfig := {}

/-- Modelled from the spec: the merge used by both
`config::ScopeCheckConfig::parse_attr_config` and `parse_xcfg_config`
(`config.rs` is not among the provided sources) — "directive fields present
in the inline form overwrite the baseline's corresponding fields; absent
fields pass through" (spec section 4.1, steps 2 and 3). -/
def mergeInherited (base : InheritedCheckConfig) (p : PartialItemConfig) :
    InheritedCheckConfig :=
  { enabled := p.enabled.getD base.enabled,
    ahasher := match p.ahasher with
      | some a => some a
      | none => base.ahasher,
    shasher := match p.shasher with
      | some s => some s
      | none => base.shasher,
    entry := p.entry.getD base.entry,
    exit := p.exit.getD base.exit,
    all_args := p.all_args.getD base.all_args,
    ret := p.ret.getD base.ret }

/-- The inherited-configuration part of `CrossChecker::build_new_scope`
(lib.rs lines 157-190): start from the baseline (parent scope or file
defaults), merge the item's inline `#[cross_check(...)]` attribute if
present (`parse_attr_config`, line 171), then merge the external per-item
configuration entry if present (`parse_xcfg_config`, line 189). -/
def build_new_scope_inherited (baseline : InheritedCheckConfig)
    (xcheck_attr : Option PartialItemConfig)
    (item_xcfg : Option PartialItemConfig) : InheritedCheckConfig :=
  let c1 := match xcheck_attr with
    | some mi => mergeInherited baseline mi
    | none => baseline
  match item_xcfg with
  | some x => mergeInherited c1 x
  | none => c1

/-! ## Attributes and struct fields -/

/-- A field-level `#[cross_check_hash(...)]` marker generated by
`fold_struct_field`. -/
inductive HashMarker where
  | as_type (ty : String)
  | none_marker
  | fixed_hash (id : Nat)
  | custom_hash (expr : String)
deriving DecidableEq

/-- The attributes the plugin looks at or generates: the inline
`#[cross_check(...)]` directive (already parsed to its directive), the
generated field marker `#[cross_check_hash(...)]`, the generated
`#[derive(CrossCheckHash)]`, the generated item-level
`#[cross_check_hash(args...)]`, and anything else. -/
inductive Attr where
  | cross_check (d : XCheckType)
  | cross_check_hash (m : HashMarker)
  | derive_xcheck_hash
  | cross_check_hash_args (args : List String)
  | other (name : String)
deriving DecidableEq

def Attr.is_cross_check : Attr → Bool
  | Attr.cross_check _ => true
  | _ => false

/-- `find_cross_check_attr` (lib.rs lines 103-105): the first attribute
named `cross_check`. -/
def find_cross_check_attr (attrs : List Attr) : Option Attr :=
  attrs.find? Attr.is_cross_check

/-- `CrossChecker::parse_field_attr` (lib.rs lines 472-480): parse the
`#[cross_check(...)]` attribute on a field into its directive. -/
def parse_field_attr (attrs : List Attr) : Option XCheckType :=
  (find_cross_check_attr attrs).bind fun a =>
    match a with
    | Attr.cross_check d => some d
    | _ => none

/-- Lookup in an association list keyed by field identity (models
`xcfg` hash-map lookups such as `struct_config().fields.get`). -/
def lookup_field (l : List (FieldIndex × XCheckType)) (k : FieldIndex) :
    Option XCheckType :=
  (l.find? fun p => decide (p.1 = k)).map Prod.snd

/-- The `sf_xcfg_xcheck.or(sf_attr_xcheck.as_ref())` step of
`fold_struct_field` (lib.rs line 607): the external per-field entry wins
when present, otherwise the inline field directive applies. -/
def resolve_field_xcheck (sf_xcfg : Option XCheckType)
    (sf_attr : Option XCheckType) : Option XCheckType :=
  match sf_xcfg with
  | some d => some d
  | none => sf_attr

/-- The marker translation inside `fold_struct_field` (lib.rs lines
608-631). `none` models the `unimplemented!()` panic on `Djb2`;
`some none` means no marker is attached. -/
def xcheck_hash_attr : XCheckType → Option (Option Attr)
  | XCheckType.Default => some none
  | XCheckType.AsType ty => some (some (Attr.cross_check_hash (HashMarker.as_type ty)))
  | XCheckType.None => some (some (Attr.cross_check_hash HashMarker.none_marker))
  | XCheckType.Disabled => some (some (Attr.cross_check_hash HashMarker.none_marker))
  | XCheckType.Djb2 _ => none
  | XCheckType.Fixed id => some (some (Attr.cross_check_hash (HashMarker.fixed_hash id)))
  | XCheckType.Custom s => some (some (Attr.cross_check_hash (HashMarker.custom_hash s)))

/-- A struct/tuple field: optional declared name plus attributes. -/
structure StructField where
  ident : Option String
  attrs : List Attr
deriving DecidableEq

/-- `CrossChecker::fold_struct_field` (lib.rs lines 589-642), with the
scope's `field_idx` cell threaded as `idx`. Returns the rewritten field,
the field identity used for configuration lookup, and the updated field
index; `none` models the `unimplemented!()` panic for the reserved `Djb2`
directive. -/
def fold_struct_field (cfg : ScopeCheckConfig) (idx : Nat) (sf : StructField) :
    Option (StructField × FieldIndex × Nat) :=
  let name_idx : FieldIndex × Nat :=
    match sf.ident with
    | some s => (FieldIndex.from_str s, idx)
    | none => (FieldIndex.Int idx, idx + 1)
  let sf_name := name_idx.1
  let sf_attr_xcheck := parse_field_attr sf.attrs
  let sf_xcfg_xcheck := lookup_field cfg.struct_cfg.fields sf_name
  let sf_xcheck := resolve_field_xcheck sf_xcfg_xcheck sf_attr_xcheck
  let hash_attr : Option (Option Attr) :=
    match sf_xcheck with
    | none => some none
    | some d => xcheck_hash_attr d
  hash_attr.map fun ha =>
    ({ ident := sf.ident,
       attrs := sf.attrs.filter (fun a => !a.is_cross_check) ++ ha.toList },
     sf_name, name_idx.2)

/-- Left-to-right folding of a variant's fields, threading the field-index
cell (the loop implicit in `noop_fold_variant_data`). -/
def fold_fields (cfg : ScopeCheckConfig) :
    Nat → List StructField → Option (List (StructField × FieldIndex))
  | _, [] => some []
  | idx, f :: fs =>
    match fold_struct_field cfg idx f with
    | none => none
    | some (f', nm, idx') =>
      (fold_fields cfg idx' fs).map fun r => (f', nm) :: r

/-- `CrossChecker::fold_variant_data` (lib.rs lines 584-587): reset the
scope's `field_idx` cell to 0 (whatever value `idx0` it held from a sibling
aggregate), then fold the fields in declaration order. -/
def fold_variant_data (cfg : ScopeCheckConfig) (idx0 : Nat)
    (fields : List StructField) : Option (List (StructField × FieldIndex)) :=
  let _ := idx0
  fold_fields cfg 0 fields

/-- An unnamed (positional) field with no attributes. -/
def blank_field : StructField := { ident := none, attrs := [] }

/-! ## Hasher pair and function instrumentation -/

/-- A function argument / local binding pattern: either a simple identifier
or any other (structural) pattern shape. -/
inductive Pat where
  | ident (name : String)
  | otherPat (descr : String)
deriving DecidableEq

/-- `CrossChecker::get_hasher_pair` (lib.rs lines 207-210): the scope's
hasher type overrides, falling back to the engine defaults
(`default_ahasher` / `default_shasher`) when unset. -/
def get_hasher_pair (dflt : String × String) (cfg : ScopeCheckConfig) :
    String × String :=
  (cfg.inherited.ahasher.getD dflt.1, cfg.inherited.shasher.getD dflt.2)

/-- A statement of the generated function body (`quote_block!` in
`build_function_xchecks`): an emitted cross-check, an extra custom
cross-check (`cross_check_raw!`), the declaration of the
`__c2rust_fn_body` closure capturing the original block under the declared
return type, and the `__c2rust_fn_result` call. The block's trailing
expression is always `__c2rust_fn_result`. -/
inductive BStmt (β : Type) where
  | xcheck (tag : XCheckTag) (val : String) (d : XCheckType)
  | extraXcheck (tag : XCheckTag) (expr : String)
  | declareFnBody (result_ty : String) (block : β)
  | callFnBody
deriving DecidableEq

/-- Modelled from the spec: `xcheck_util::CrossCheckBuilder::build_xcheck`
(`xcheck_util.rs` is not among the provided sources) — "emits the … check
if its directive is not Disabled" (spec section 4.2); the reserved
named-algorithm variant hard-fails (spec section 7). -/
def build_xcheck {β : Type} (d : XCheckType) (tag : XCheckTag) (val : String) :
    Except String (Option (BStmt β)) :=
  match d with
  | XCheckType.None => Except.ok none
  | XCheckType.Disabled => Except.ok none
  | XCheckType.Djb2 _ => Except.error "unimplemented"
  | _ => Except.ok (some (BStmt.xcheck tag val d))

/-- Modelled from the spec: `xcheck_util::CrossCheckBuilder::build_ident_xcheck`
(`xcheck_util.rs` is not among the provided sources) — the entry/exit check
hashes the function's name. -/
def build_ident_xcheck {β : Type} (d : XCheckType) (tag : XCheckTag)
    (ident : String) : Except String (Option (BStmt β)) :=
  build_xcheck d tag ident

/-- The directive resolved for an identifier argument inside
`build_arg_xcheck` (lib.rs lines 218-221): the per-argument override if
present, otherwise the scope's `all_args` default. -/
def resolved_arg_directive (cfg : ScopeCheckConfig) (name : String) : XCheckType :=
  (lookup_field cfg.function_cfg.args (FieldIndex.from_str name)).getD
    cfg.inherited.all_args

/-- `CrossChecker::build_arg_xcheck` (lib.rs lines 213-238): a simple
identifier pattern gets a cross-check under its resolved directive; any
other pattern shape hits `unimplemented!()` (modelled by `Except.error`). -/
def build_arg_xcheck {β : Type} (cfg : ScopeCheckConfig) (arg : Pat) :
    Except String (Option (BStmt β)) :=
  match arg with
  | Pat.ident name => build_xcheck (resolved_arg_directive cfg name)
      XCheckTag.FunctionArg name
  | Pat.otherPat _ => Except.error "unimplemented"

/-- The `fn_decl.inputs.iter().flat_map(build_arg_xcheck)` loop of
`build_function_xchecks` (lib.rs lines 297-299). -/
def build_arg_xchecks {β : Type} (cfg : ScopeCheckConfig) :
    List Pat → Except String (List (BStmt β))
  | [] => Except.ok []
  | p :: ps => do
    let s ← build_arg_xcheck cfg p
    let rest ← build_arg_xchecks cfg ps
    Except.ok (s.toList ++ rest)

/-- `CrossChecker::build_extra_xchecks` (lib.rs lines 269-283): one
`cross_check_raw!(tag, expr)` statement per extra check, in order, under
that check's own tag. -/
def build_extra_xchecks {β : Type} (extra : List ExtraXCheck) : List (BStmt β) :=
  extra.map fun ex => BStmt.extraXcheck ex.tag ex.custom

/-- The rewritten function body: either the instrumented statement list
(whose trailing expression is `__c2rust_fn_result`) or the original block
untouched. -/
inductive CheckedBlock (β : Type) where
  | instrumented (stmts : List (BStmt β))
  | original (block : β)
deriving DecidableEq

/-- The full block returned by `build_function_xchecks`: the two hash-algorithm
type aliases (`cross_check_types::DefaultAggHasher` / `DefaultSimpleHasher`,
lib.rs lines 340-348) followed by the checked block. -/
structure FnBody (β : Type) where
  ahasherAlias : String
  shasherAlias : String
  checked : CheckedBlock β
deriving DecidableEq

/-- The `checked_block` computation of `CrossChecker::build_function_xchecks`
(lib.rs lines 288-337). When the scope's `enabled` flag is set, assemble —
in the `quote_block!` order of lines 324-334 — the entry check, the
argument checks, the extra entry checks, the `__c2rust_fn_body` closure
declaration under the declared return type (`()` when the signature
declares none, lines 320-323), its call, the exit check, the return-value
check and the extra exit checks; otherwise keep the original block.
The `Except` layer models the `unimplemented!()` panics reachable from the
builders. -/
def build_checked_block {β : Type} (cfg : ScopeCheckConfig) (fn_ident : String)
    (inputs : List Pat) (output : Option String) (block : β) :
    Except String (CheckedBlock β) :=
  if cfg.inherited.enabled then do
    let entry_xcheck ← build_ident_xcheck (β := β) cfg.inherited.entry
      XCheckTag.FunctionEntry fn_ident
    let exit_xcheck ← build_ident_xcheck (β := β) cfg.inherited.exit
      XCheckTag.FunctionExit fn_ident
    let arg_xchecks ← build_arg_xchecks (β := β) cfg inputs
    let result_xcheck ← build_xcheck (β := β) cfg.inherited.ret
      XCheckTag.FunctionReturn "val_ref"
    let entry_extra_xchecks := build_extra_xchecks (β := β) cfg.function_cfg.entry_extra
    let exit_extra_xchecks := build_extra_xchecks (β := β) cfg.function_cfg.exit_extra
    let result_ty := output.getD "()"
    Except.ok (CheckedBlock.instrumented
      (entry_xcheck.toList ++ arg_xchecks ++ entry_extra_xchecks ++
       [BStmt.declareFnBody result_ty block, BStmt.callFnBody] ++
       exit_xcheck.toList ++ result_xcheck.toList ++ exit_extra_xchecks))
  else
    Except.ok (CheckedBlock.original block)

/-- `CrossChecker::build_function_xchecks` (lib.rs lines 285-349): compute
the checked block, then prepend the two hash-algorithm type aliases
(lib.rs lines 338-348: "whatever the configuration says, we should always
add these"), taken from `get_hasher_pair`. -/
def build_function_xchecks {β : Type} (dflt : String × String)
    (cfg : ScopeCheckConfig) (fn_ident : String) (inputs : List Pat)
    (output : Option String) (block : β) : Except String (FnBody β) :=
  (build_checked_block cfg fn_ident inputs output block).map fun cb =>
    { ahasherAlias := (get_hasher_pair dflt cfg).1,
      shasherAlias := (get_hasher_pair dflt cfg).2,
      checked := cb }

/-! ### Semantics of the generated body -/

/-- Run-time state while executing a generated body: the declared
`__c2rust_fn_body` closure, the captured `__c2rust_fn_result`, and the
trace of emitted cross-check events `(tag, hashed value)`. -/
structure RunState (β V : Type) where
  fnBody : Option β
  fnResult : Option V
  events : List (XCheckTag × String)

/-- One step of the generated body's semantics: check statements emit their
event and change nothing else; the closure declaration stores the original
block; the call evaluates it and captures the result. -/
def exec_stmt {β V : Type} (ev : β → V) (st : RunState β V) :
    BStmt β → RunState β V
  | BStmt.xcheck tag val _ => { st with events := st.events ++ [(tag, val)] }
  | BStmt.extraXcheck tag e => { st with events := st.events ++ [(tag, e)] }
  | BStmt.declareFnBody _ b => { st with fnBody := some b }
  | BStmt.callFnBody => { st with fnResult := st.fnBody.map ev }

/-- Execute a checked block: an instrumented block runs its statements and
yields the captured `__c2rust_fn_result` (its trailing expression); the
original block just evaluates, emitting nothing. -/
def run_checked_block {β V : Type} (ev : β → V) :
    CheckedBlock β → List (XCheckTag × String) × Option V
  | CheckedBlock.instrumented stmts =>
    let st := stmts.foldl (exec_stmt ev) ⟨none, none, []⟩
    (st.events, st.fnResult)
  | CheckedBlock.original b => ([], some (ev b))

/-- Directives that produce a check statement (everything except
`None`/`Disabled`, which suppress it, and the reserved `Djb2`). -/
def producesCheck : XCheckType → Bool
  | XCheckType.None => false
  | XCheckType.Disabled => false
  | XCheckType.Djb2 _ => false
  | _ => true

/-! ## Local-binding statements (`fold_stmt`) -/

/-- The statement kinds `fold_stmt` distinguishes: a `let` binding with its
attributes and pattern, or anything else. -/
inductive StmtKind where
  | Local (attrs : List Attr) (pat : Pat)
  | OtherStmt
deriving DecidableEq

/-- A statement spliced in by `fold_stmt`: `cross_check_value!(ident)`. -/
inductive SpliceStmt where
  | cross_check_value (ident : String)
deriving DecidableEq

/-- The splice part of `CrossChecker::fold_stmt` (lib.rs lines 558-581):
for a local binding carrying a `#[cross_check]` attribute whose pattern is
a simple identifier, a `cross_check_value!` statement is chained right
after the original statement; any other pattern shape yields `None` —
the statement passes through with no splice and no error. -/
def fold_stmt (s : StmtKind) : List (StmtKind ⊕ SpliceStmt) :=
  let new_stmt : Option SpliceStmt :=
    match s with
    | StmtKind.Local attrs pat =>
      (find_cross_check_attr attrs).bind fun _ =>
        match pat with
        | Pat.ident n => some (SpliceStmt.cross_check_value n)
        | Pat.otherPat _ => none
    | StmtKind.OtherStmt => none
  [Sum.inl s] ++ (new_stmt.map Sum.inr).toList

/-! ## Span-based scope recovery -/

/-- The `macro_scopes` map of `CrossCheckExpander`, modelled as an
association list from source locations (`Span`, identified by a number)
to the inherited configuration snapshot recorded there. -/
def lookup_scope (ms : List (Nat × InheritedCheckConfig)) (l : Nat) :
    Option InheritedCheckConfig :=
  (ms.find? fun p => decide (p.1 = l)).map Prod.snd

/-- `CrossCheckExpander::find_span_scope` (lib.rs lines 754-761): check the
map at the location itself; if absent and the location results from a macro
expansion (`expn_info`), retry at that expansion's call site, recursively.
A span is modelled as its own location `l` plus the chain of call-site
locations `chain` its expansion ancestry unwinds through. -/
def find_span_scope (ms : List (Nat × InheritedCheckConfig)) :
    Nat → List Nat → Option InheritedCheckConfig
  | l, chain =>
    match lookup_scope ms l, chain with
    | some c, _ => some c
    | none, [] => none
    | none, cs :: rest => find_span_scope ms cs rest

/-! ## Top-level dispatch (`CrossCheckExpander::expand`) -/

/-- How `expand` assembles the engine's initial scope configuration:
either fresh at top level — `ScopeCheckConfig::new()` followed by
`parse_attr_config` on the directive's own parameters, with the file's
external defaults applied when such defaults exist (lib.rs lines 798-808) —
or as a direct child of the scope recovered by span lookup, again with the
directive's parameters parsed into it (lib.rs lines 816-823). -/
inductive BuiltScope where
  | freshTop (mi : PartialItemConfig) (fileDefaults : Option PartialItemConfig)
  | childOf (parent : InheritedCheckConfig) (mi : PartialItemConfig)
deriving DecidableEq

/-- The outcome of one `expand` invocation: either the item is returned
unchanged, or a `CrossChecker` is run over it with the given initial scope
and the given `skip_first_scope` flag. -/
inductive ExpandResult where
  | unchanged
  | folded (scope : BuiltScope) (skip_first_scope : Bool)
deriving DecidableEq

/-- `CrossCheckExpander::expand` (lib.rs lines 784-837), for an
`Annotatable::Item`: dispatch on whether the item is a module and whether
span lookup recovers a recorded scope, in the source's match-arm order
(lines 796-828). Both folding arms construct the `CrossChecker` with
`skip_first_scope = true` (lines 809 and 824). -/
def expand (ms : List (Nat × InheritedCheckConfig)) (sp : Nat)
    (chain : List Nat) (mi : PartialItemConfig) (isMod : Bool)
    (fileDefaults : Option PartialItemConfig) : ExpandResult :=
  match isMod, find_span_scope ms sp chain with
  | true, none => ExpandResult.folded (BuiltScope.freshTop mi fileDefaults) true
  | _, some sc => ExpandResult.folded (BuiltScope.childOf sc mi) true
  | false, none => ExpandResult.unchanged

/-! ## Generated items, C-ABI hash export, item folding -/

/-- The body of a synthesized union hash implementation
(`build_union_hash`): the scope's custom hash expression if set, or the
default sentinel rule (`LEAF_RECORD_HASH` at depth 0, `ANY_UNION_HASH`
otherwise). -/
inductive UnionHashBody where
  | customExpr (e : String)
  | depthSentinel
deriving DecidableEq

/-- Items synthesized by the plugin and queued as pending: the
`CrossCheckHash` impl for a union, the `#[no_mangle]` C-ABI hash function,
and the `CrossCheckHash` impl for a foreign type (which forwards to the
external `__c2rust_hash_T` function). -/
inductive GenItem where
  | unionHashImpl (ident : String) (body : UnionHashBody)
  | cHashFn (name : String) (ahasher : String) (shasher : String)
  | foreignHashImpl (tyName : String) (hashFnName : String)
deriving DecidableEq

/-- `CrossChecker::build_union_hash` (lib.rs lines 351-377). -/
def build_union_hash (cfg : ScopeCheckConfig) (union_ident : String) : GenItem :=
  match cfg.struct_cfg.custom_hash with
  | some ch => GenItem.unionHashImpl union_ident (UnionHashBody.customExpr ch)
  | none => GenItem.unionHashImpl union_ident UnionHashBody.depthSentinel

/-- `CrossChecker::build_type_c_hash_function` (lib.rs lines 385-406,
the `c-hash-functions` build): compute `__c2rust_hash_{T}`; if that symbol
was already emitted, return no item and leave the emitted set unchanged;
otherwise record the symbol and return the generated function. -/
def build_type_c_hash_function (dflt : String × String)
    (cfg : ScopeCheckConfig) (emitted : List String) (ty_ident : String) :
    Option GenItem × List String :=
  let hash_fn_name := "__c2rust_hash_" ++ ty_ident
  if hash_fn_name ∈ emitted then (none, emitted)
  else
    let hashers := get_hasher_pair dflt cfg
    (some (GenItem.cHashFn hash_fn_name hashers.1 hashers.2),
     hash_fn_name :: emitted)

/-- Repeated emission requests (one per visit of a type's definition),
threading the emitted-symbol set, collecting the items produced. -/
def process_c_hash_requests (dflt : String × String) (cfg : ScopeCheckConfig) :
    List String → List String → List GenItem × List String
  | [], emitted => ([], emitted)
  | t :: ts, emitted =>
    let r := build_type_c_hash_function dflt cfg emitted t
    let rest := process_c_hash_requests dflt cfg ts r.2
    (r.1.toList ++ rest.1, rest.2)

/-- `CrossChecker::build_hash_attr_args` (lib.rs lines 243-267): the
key/value pairs for the generated item-level `#[cross_check_hash(...)]`
attribute, one per configured override, in source order. -/
def build_hash_attr_args (cfg : ScopeCheckConfig) : List String :=
  (cfg.inherited.ahasher.map (fun s => "ahasher=" ++ s)).toList ++
  (cfg.inherited.shasher.map (fun s => "shasher=" ++ s)).toList ++
  (cfg.struct_cfg.field_hasher.map (fun s => "field_hasher=" ++ s)).toList ++
  (cfg.struct_cfg.custom_hash.map (fun s => "custom_hash=" ++ s)).toList

/-- The item shapes whose rewriting `internal_fold_item_simple` decides
directly (the `Fn` arm delegates to `build_function_xchecks`, modelled
separately above). -/
inductive SimpleItem where
  | Union (ident : String) (attrs : List Attr)
  | StructOrEnum (ident : String) (attrs : List Attr)
  | OtherItem (ident : String) (attrs : List Attr)
deriving DecidableEq

/-- The expander-side mutable state threaded through item folding: the
pending-item queue and the emitted C-ABI hash-function symbol set. -/
structure FoldState where
  pending_items : List GenItem
  c_hash_functions : List String
deriving DecidableEq

/-- The `Union` and `Enum | Struct` arms of
`CrossChecker::internal_fold_item_simple` (lib.rs lines 408-469).
A union always gets its synthesized hash impl queued (plus the C-ABI hash
function when that feature is on), with no test of the `enabled` flag;
a struct/enum gets `#[derive(CrossCheckHash)]`, the optional
`#[cross_check_hash(...)]` attribute and the optional C-ABI hash function
only when the scope's `enabled` flag is set. -/
def internal_fold_item_simple (cHash : Bool) (dflt : String × String)
    (cfg : ScopeCheckConfig) (st : FoldState) (item : SimpleItem) :
    SimpleItem × FoldState :=
  match item with
  | SimpleItem.Union id attrs =>
    let uh := build_union_hash cfg id
    let st1 : FoldState := { st with pending_items := st.pending_items ++ [uh] }
    if cHash then
      let r := build_type_c_hash_function dflt cfg st1.c_hash_functions id
      (SimpleItem.Union id attrs,
       { pending_items := st1.pending_items ++ r.1.toList,
         c_hash_functions := r.2 })
    else (SimpleItem.Union id attrs, st1)
  | SimpleItem.StructOrEnum id attrs =>
    if cfg.inherited.enabled then
      let attrs1 := attrs ++ [Attr.derive_xcheck_hash]
      let hargs := build_hash_attr_args cfg
      let attrs2 := if hargs.isEmpty then attrs1
        else attrs1 ++ [Attr.cross_check_hash_args hargs]
      if cHash then
        let r := build_type_c_hash_function dflt cfg st.c_hash_functions id
        (SimpleItem.StructOrEnum id attrs2,
         { pending_items := st.pending_items ++ r.1.toList,
           c_hash_functions := r.2 })
      else (SimpleItem.StructOrEnum id attrs2, st)
    else (SimpleItem.StructOrEnum id attrs, st)
  | SimpleItem.OtherItem id attrs => (SimpleItem.OtherItem id attrs, st)

/-- Foreign-module item kinds: a foreign type declaration or anything else. -/
inductive ForeignItemKind where
  | Ty (ident : String)
  | OtherForeign (ident : String)
deriving DecidableEq

/-- `CrossChecker::fold_foreign_item` (lib.rs lines 674-703): a foreign type
declaration unconditionally queues a `CrossCheckHash` impl that forwards to
the external `__c2rust_hash_{T}` function; no configuration flag is
consulted. -/
def fold_foreign_item (st : FoldState) (ni : ForeignItemKind) :
    ForeignItemKind × FoldState :=
  match ni with
  | ForeignItemKind.Ty name =>
    (ni, { st with pending_items := st.pending_items ++
            [GenItem.foreignHashImpl name ("__c2rust_hash_" ++ name)] })
  | ForeignItemKind.OtherForeign _ => (ni, st)

/-! ## Auxiliary definitions used in the statements and proofs -/

/-- The cross-check event a generated statement emits, if any. -/
def stmt_event {β : Type} : BStmt β → Option (XCheckTag × String)
  | BStmt.xcheck tag val _ => some (tag, val)
  | BStmt.extraXcheck tag e => some (tag, e)
  | BStmt.declareFnBody _ _ => none
  | BStmt.callFnBody => none

/-- Whether a generated item is the C-ABI hash function with the given
symbol name. -/
def is_c_hash_fn_for (nm : String) : GenItem → Bool
  | GenItem.cHashFn n _ _ => decide (n = nm)
  | _ => false

/-- A scope whose effective `enabled` flag is off (e.g. produced by an
external configuration file setting `enabled=false` for the file). -/
def cfg_disabled : ScopeCheckConfig :=
  { ScopeCheckConfig.new with
    inherited := { InheritedCheckConfig.initial with enabled := false } }

/-- External per-item configuration of a 3-field tuple struct whose field
index 1 carries the "exclude field" (`Disabled`) directive. -/
def cfg_tuple3 : ScopeCheckConfig :=
  { ScopeCheckConfig.new with
    struct_cfg := { StructCheckConfig.initial with
      fields := [(FieldIndex.Int 1, XCheckType.Disabled)] } }

/-- External per-field configuration setting `Disabled` for the field named
`f` (used to exercise external-over-inline precedence at the field level). -/
def cfg_field_external : ScopeCheckConfig :=
  { ScopeCheckConfig.new with
    struct_cfg := { StructCheckConfig.initial with
      fields := [(FieldIndex.Str "f", XCheckType.Disabled)] } }

/-! ## Theorems -/

/-- C7: span-scope lookup first checks the map for an exact match; on a
miss it recurses into the macro-expansion call-site chain; and when the
whole call-site ancestry has no recorded entry it returns absence — never
a configuration. -/
theorem c7_span_scope_lookup :
    ∀ (ms : List (Nat × InheritedCheckConfig)) (l : Nat) (chain : List Nat),
      (∀ c, lookup_scope ms l = some c → find_span_scope ms l chain = some c) ∧
      (lookup_scope ms l = none → chain = [] →
        find_span_scope ms l chain = none) ∧
      (∀ cs rest, lookup_scope ms l = none → chain = cs :: rest →
        find_span_scope ms l chain = find_span_scope ms cs rest) ∧
      ((∀ a ∈ l :: chain, lookup_scope ms a = none) →
        find_span_scope ms l chain = none) := by
  intro ms l chain
  refine ⟨?_, ?_, ?_, ?_⟩
  · intro c hc
    simp [find_span_scope, hc]
  · intro hc hchain
    subst hchain
    simp [find_span_scope, hc]
  · intro cs rest hc hchain
    subst hchain
    simp [find_span_scope, hc]
  · induction chain generalizing l with
    | nil =>
      intro h
      have hl := h l (by simp)
      simp [find_span_scope, hl]
    | cons cs rest ih =>
      intro h
      have hl := h l (by simp)
      have hstep : find_span_scope ms l (cs :: rest) = find_span_scope ms cs rest := by
        simp [find_span_scope, hl]
      rw [hstep]
      exact ih cs fun a ha => h a (List.mem_cons_of_mem l ha)

/-- Witness for C7 at a concrete unrecorded span chain. -/
theorem c7_witness : find_span_scope [] 0 [1, 2] = none :=
  (c7_span_scope_lookup [] 0 [1, 2]).2.2.2 (by decide)

/-- C3 counterexample: at a module-level item with a directive and no
recorded span scope, `expand` runs the engine with
`skip_first_scope = true` (lib.rs line 809), not `false` as the claim's
"without skipping first-scope construction" requires. -/
theorem c3_counterexample :
    expand [] 0 [] PartialItemConfig.empty true none
        = ExpandResult.folded (BuiltScope.freshTop PartialItemConfig.empty none) true
      ∧ expand [] 0 [] PartialItemConfig.empty true none
        ≠ ExpandResult.folded (BuiltScope.freshTop PartialItemConfig.empty none) false :=
  ⟨by decide, by decide⟩

/-- C3 (amended): when span lookup finds no recorded scope for a
module-level item, `expand` builds a fresh configuration purely from the
directive's own parameters plus file defaults; when it finds a recorded
scope, it builds the configuration as a child of the recovered scope; in
both cases the engine runs with first-scope construction skipped
(`skip_first_scope = true`); a non-module item with no recorded scope is
returned unchanged. -/
theorem c3_expand_dispatch :
    ∀ (ms : List (Nat × InheritedCheckConfig)) (sp : Nat) (chain : List Nat)
      (mi : PartialItemConfig) (fd : Option PartialItemConfig),
      (find_span_scope ms sp chain = none →
        expand ms sp chain mi true fd
          = ExpandResult.folded (BuiltScope.freshTop mi fd) true) ∧
      (∀ sc isMod, find_span_scope ms sp chain = some sc →
        expand ms sp chain mi isMod fd
          = ExpandResult.folded (BuiltScope.childOf sc mi) true) ∧
      (find_span_scope ms sp chain = none →
        expand ms sp chain mi false fd = ExpandResult.unchanged) := by
  intro ms sp chain mi fd
  refine ⟨?_, ?_, ?_⟩
  · intro h
    simp [expand, h]
  · intro sc isMod h
    cases isMod <;> simp [expand, h]
  · intro h
    simp [expand, h]

/-- Witness for C3 (amended) at a concrete recorded scope. -/
theorem c3_witness :
    expand [(5, InheritedCheckConfig.initial)] 5 [] PartialItemConfig.empty false none
      = ExpandResult.folded
          (BuiltScope.childOf InheritedCheckConfig.initial PartialItemConfig.empty)
          true :=
  (c3_expand_dispatch [(5, InheritedCheckConfig.initial)] 5 []
    PartialItemConfig.empty none).2.1 InheritedCheckConfig.initial false (by decide)

/-- C4 counterexample: a local binding that carries a `#[cross_check]`
attribute but binds a non-identifier pattern passes through `fold_stmt`
unchanged — no spliced value-hash statement and no failure — contradicting
the claim that any such pattern hard-fails. -/
theorem c4_counterexample :
    fold_stmt (StmtKind.Local [Attr.cross_check XCheckType.Default]
        (Pat.otherPat "(a, b)"))
      = [Sum.inl (StmtKind.Local [Attr.cross_check XCheckType.Default]
          (Pat.otherPat "(a, b)"))] := by
  decide

/-- C4 (amended): a function-argument pattern that is not a simple
identifier is a fatal error (`unimplemented!()` in `build_arg_xcheck`),
so argument checks are only produced for simple-identifier patterns; but a
local binding carrying a check directive whose pattern is not a simple
identifier is silently skipped — the statement passes through with no
value-hash splice and no error — while an identifier-pattern binding gets
the splice immediately after it. -/
theorem c4_nonident_patterns :
    ∀ (cfg : ScopeCheckConfig) (descr : String) (attrs : List Attr) (n : String),
      (build_arg_xcheck (β := Unit) cfg (Pat.otherPat descr)
        = Except.error "unimplemented") ∧
      (fold_stmt (StmtKind.Local attrs (Pat.otherPat descr))
        = [Sum.inl (StmtKind.Local attrs (Pat.otherPat descr))]) ∧
      ((find_cross_check_attr attrs).isSome →
        fold_stmt (StmtKind.Local attrs (Pat.ident n))
          = [Sum.inl (StmtKind.Local attrs (Pat.ident n)),
             Sum.inr (SpliceStmt.cross_check_value n)]) := by
  intro cfg descr attrs n
  refine ⟨rfl, ?_, ?_⟩
  · cases h : find_cross_check_attr attrs <;> simp [fold_stmt, h]
  · intro hf
    obtain ⟨a, ha⟩ := Option.isSome_iff_exists.mp hf
    simp [fold_stmt, ha]

/-- Witness for C4 (amended): an identifier-pattern binding with the
attribute gets the value-hash splice. -/
theorem c4_witness :
    fold_stmt (StmtKind.Local [Attr.cross_check XCheckType.Default]
        (Pat.ident "x"))
      = [Sum.inl (StmtKind.Local [Attr.cross_check XCheckType.Default]
          (Pat.ident "x")),
         Sum.inr (SpliceStmt.cross_check_value "x")] :=
  (c4_nonident_patterns ScopeCheckConfig.new "p"
    [Attr.cross_check XCheckType.Default] "x").2.2 (by decide)

/-- C10: the `enabled` flag gates only function instrumentation and the
struct/enum markers: a union definition and a foreign type declaration get
their synthesized `CrossCheckHash` implementation queued as a pending item
even when the scope's effective `enabled` flag is false, while a
struct/enum under a disabled scope is left entirely unchanged. -/
theorem c10_union_foreign_unconditional :
    ∀ (cHash : Bool) (dflt : String × String) (cfg : ScopeCheckConfig)
      (st : FoldState) (uid : String) (attrs : List Attr) (tyName : String),
      cfg.inherited.enabled = false →
        (build_union_hash cfg uid ∈
          (internal_fold_item_simple cHash dflt cfg st
            (SimpleItem.Union uid attrs)).2.pending_items) ∧
        (GenItem.foreignHashImpl tyName ("__c2rust_hash_" ++ tyName) ∈
          (fold_foreign_item st (ForeignItemKind.Ty tyName)).2.pending_items) ∧
        (internal_fold_item_simple cHash dflt cfg st
            (SimpleItem.StructOrEnum uid attrs)
          = (SimpleItem.StructOrEnum uid attrs, st)) := by
  intro cHash dflt cfg st uid attrs tyName he
  refine ⟨?_, ?_, ?_⟩
  · cases cHash <;> simp [internal_fold_item_simple]
  · simp [fold_foreign_item]
  · simp [internal_fold_item_simple, he]

/-- Witness for C10 at a concrete disabled scope. -/
theorem c10_witness :
    (build_union_hash cfg_disabled "U" ∈
      (internal_fold_item_simple true ("A", "S") cfg_disabled
        { pending_items := [], c_hash_functions := [] }
        (SimpleItem.Union "U" [])).2.pending_items) ∧
    (GenItem.foreignHashImpl "T" ("__c2rust_hash_" ++ "T") ∈
      (fold_foreign_item { pending_items := [], c_hash_functions := [] }
        (ForeignItemKind.Ty "T")).2.pending_items) ∧
    (internal_fold_item_simple true ("A", "S") cfg_disabled
        { pending_items := [], c_hash_functions := [] }
        (SimpleItem.StructOrEnum "U" [])
      = (SimpleItem.StructOrEnum "U" [],
         { pending_items := [], c_hash_functions := [] })) :=
  c10_union_foreign_unconditional true ("A", "S") cfg_disabled
    { pending_items := [], c_hash_functions := [] } "U" [] "T" (by decide)

/-- C1: when both an inline `#[cross_check(...)]` directive and an external
per-item configuration entry set the same field, the external entry's value
takes effect: `build_new_scope` merges the inline directive into the
baseline first and the external entry afterwards; at the field level the
external per-field entry likewise wins over the inline field directive. -/
theorem c1_external_config_wins :
    ∀ (base : InheritedCheckConfig) (p q : PartialItemConfig),
      ((∀ b, q.enabled = some b →
        (build_new_scope_inherited base (some p) (some q)).enabled = b) ∧
       (∀ a, q.ahasher = some a →
        (build_new_scope_inherited base (some p) (some q)).ahasher = some a) ∧
       (∀ a, q.shasher = some a →
        (build_new_scope_inherited base (some p) (some q)).shasher = some a) ∧
       (∀ d, q.entry = some d →
        (build_new_scope_inherited base (some p) (some q)).entry = d) ∧
       (∀ d, q.exit = some d →
        (build_new_scope_inherited base (some p) (some q)).exit = d) ∧
       (∀ d, q.all_args = some d →
        (build_new_scope_inherited base (some p) (some q)).all_args = d) ∧
       (∀ d, q.ret = some d →
        (build_new_scope_inherited base (some p) (some q)).ret = d)) ∧
      (∀ de di : XCheckType,
        resolve_field_xcheck (some de) (some di) = some de) ∧
      (fold_struct_field cfg_field_external 0
          { ident := some "f", attrs := [Attr.cross_check XCheckType.Default] }
        = some ({ ident := some "f",
                  attrs := [Attr.cross_check_hash HashMarker.none_marker] },
                FieldIndex.Str "f", 0)) := by
  intro base p q
  refine ⟨⟨?_, ?_, ?_, ?_, ?_, ?_, ?_⟩, ?_, ?_⟩
  · intro b h
    simp [build_new_scope_inherited, mergeInherited, h]
  · intro a h
    simp [build_new_scope_inherited, mergeInherited, h]
  · intro a h
    simp [build_new_scope_inherited, mergeInherited, h]
  · intro d h
    simp [build_new_scope_inherited, mergeInherited, h]
  · intro d h
    simp [build_new_scope_inherited, mergeInherited, h]
  · intro d h
    simp [build_new_scope_inherited, mergeInherited, h]
  · intro d h
    simp [build_new_scope_inherited, mergeInherited, h]
  · intro de di
    rfl
  · decide

/-- Witness for C1: inline sets `enabled=true`, the external entry sets
`enabled=false`; the resolved configuration is disabled. -/
theorem c1_witness :
    (build_new_scope_inherited InheritedCheckConfig.initial
        (some { PartialItemConfig.empty with enabled := some true })
        (some { PartialItemConfig.empty with enabled := some false })).enabled
      = false :=
  (c1_external_config_wins InheritedCheckConfig.initial
    { PartialItemConfig.empty with enabled := some true }
    { PartialItemConfig.empty with enabled := some false }).1.1 false (by decide)

/-- Helper for C6: once a symbol is in the emitted set, no later request in
a run produces an item with that symbol. -/
theorem process_count_zero (dflt : String × String) (cfg : ScopeCheckConfig)
    (nm : String) :
    ∀ (visits emitted : List String), nm ∈ emitted →
      ((process_c_hash_requests dflt cfg visits emitted).1.countP
        (is_c_hash_fn_for nm)) = 0 := by
  intro visits
  induction visits with
  | nil =>
    intro em h
    simp [process_c_hash_requests]
  | cons t ts ih =>
    intro em h
    by_cases hc : ("__c2rust_hash_" ++ t) ∈ em
    · simpa [process_c_hash_requests, build_type_c_hash_function, hc] using ih em h
    · have hne : ¬ ("__c2rust_hash_" ++ t) = nm := fun hEq => hc (hEq ▸ h)
      have hrest := ih (("__c2rust_hash_" ++ t) :: em) (List.mem_cons_of_mem _ h)
      simp [process_c_hash_requests, build_type_c_hash_function, hc,
            is_c_hash_fn_for, hne, hrest]

/-- Helper for C6: in any run, at most one item with a given symbol name is
produced. -/
theorem process_count_le_one (dflt : String × String) (cfg : ScopeCheckConfig)
    (nm : String) :
    ∀ (visits emitted : List String),
      ((process_c_hash_requests dflt cfg visits emitted).1.countP
        (is_c_hash_fn_for nm)) ≤ 1 := by
  intro visits
  induction visits with
  | nil =>
    intro em
    simp [process_c_hash_requests]
  | cons t ts ih =>
    intro em
    by_cases hc : ("__c2rust_hash_" ++ t) ∈ em
    · simpa [process_c_hash_requests, build_type_c_hash_function, hc] using ih em
    · by_cases hn : ("__c2rust_hash_" ++ t) = nm
      · subst hn
        have h0 := process_count_zero dflt cfg ("__c2rust_hash_" ++ t) ts
          (("__c2rust_hash_" ++ t) :: em) (List.mem_cons_self _ _)
        simp [process_c_hash_requests, build_type_c_hash_function, hc,
              is_c_hash_fn_for, h0]
      · have hrest := ih (("__c2rust_hash_" ++ t) :: em)
        simpa [process_c_hash_requests, build_type_c_hash_function, hc,
               is_c_hash_fn_for, hn] using hrest

/-- C6: the C-ABI hash function for a type name is synthesized at most once
per pass: the first emission records the symbol in the emitted set and
returns the item, a repeated request is a silent no-op (no item, set
unchanged), and over any sequence of visits at most one item with the
symbol is produced. -/
theorem c6_c_hash_function_emitted_once :
    ∀ (dflt : String × String) (cfg : ScopeCheckConfig) (emitted : List String)
      (T : String) (visits : List String),
      (("__c2rust_hash_" ++ T) ∉ emitted →
        build_type_c_hash_function dflt cfg emitted T
          = (some (GenItem.cHashFn ("__c2rust_hash_" ++ T)
              (get_hasher_pair dflt cfg).1 (get_hasher_pair dflt cfg).2),
             ("__c2rust_hash_" ++ T) :: emitted)) ∧
      (("__c2rust_hash_" ++ T) ∈ emitted →
        build_type_c_hash_function dflt cfg emitted T = (none, emitted)) ∧
      ((process_c_hash_requests dflt cfg visits []).1.countP
        (is_c_hash_fn_for ("__c2rust_hash_" ++ T)) ≤ 1) := by
  intro dflt cfg emitted T visits
  refine ⟨?_, ?_, process_count_le_one dflt cfg _ visits []⟩
  · intro h
    simp [build_type_c_hash_function, h, get_hasher_pair]
  · intro h
    simp [build_type_c_hash_function, h]

/-- Witness for C6: first emission for type `T` from an empty emitted set. -/
theorem c6_witness :
    build_type_c_hash_function ("JodyHasher", "SimpleHasher")
        ScopeCheckConfig.new [] "T"
      = (some (GenItem.cHashFn ("__c2rust_hash_" ++ "T") "JodyHasher" "SimpleHasher"),
         [("__c2rust_hash_" ++ "T")]) :=
  (c6_c_hash_function_emitted_once ("JodyHasher", "SimpleHasher")
    ScopeCheckConfig.new [] "T" []).1 (by decide)

/-- Helper: the marker translation is defined (no panic) exactly off the
reserved `Djb2` variant. -/
theorem xcheck_hash_attr_isSome (d : XCheckType)
    (h : ∀ s, d ≠ XCheckType.Djb2 s) : (xcheck_hash_attr d).isSome := by
  cases d
  case Djb2 s => exact absurd rfl (h s)
  all_goals simp [xcheck_hash_attr]

/-- Helper: folding an unnamed attribute-free field at index `idx` assigns
identity `Int idx` and advances the counter, provided the external entry
for that index is not the reserved variant. -/
theorem fold_struct_field_blank (cfg : ScopeCheckConfig) (idx : Nat)
    (h : ∀ s, lookup_field cfg.struct_cfg.fields (FieldIndex.Int idx)
      ≠ some (XCheckType.Djb2 s)) :
    ∃ f', fold_struct_field cfg idx blank_field
      = some (f', FieldIndex.Int idx, idx + 1) := by
  unfold fold_struct_field blank_field
  simp only [parse_field_attr, find_cross_check_attr, List.find?_nil,
    Option.bind_none, resolve_field_xcheck]
  cases hl : lookup_field cfg.struct_cfg.fields (FieldIndex.Int idx) with
  | none => simp
  | some d =>
    have hd : ∀ s, d ≠ XCheckType.Djb2 s := by
      intro s hds
      exact h s (by rw [hl, hds])
    obtain ⟨ha, hha⟩ := Option.isSome_iff_exists.mp (xcheck_hash_attr_isSome d hd)
    simp [hha]

/-- Helper for C5: folding `k` unnamed blank fields starting at counter `s`
assigns identities `s, s+1, …, s+k-1`. -/
theorem fold_fields_replicate (cfg : ScopeCheckConfig)
    (h : ∀ i s, lookup_field cfg.struct_cfg.fields (FieldIndex.Int i)
      ≠ some (XCheckType.Djb2 s)) :
    ∀ (k s : Nat),
      (fold_fields cfg s (List.replicate k blank_field)).map (·.map Prod.snd)
        = some ((List.range' s k).map FieldIndex.Int) := by
  intro k
  induction k with
  | zero =>
    intro s
    simp [fold_fields]
  | succ n ih =>
    intro s
    obtain ⟨f', hf⟩ := fold_struct_field_blank cfg s (h s)
    cases hrec : fold_fields cfg (s + 1) (List.replicate n blank_field) with
    | none =>
      have := ih (s + 1)
      rw [hrec] at this
      simp at this
    | some r =>
      have hr : r.map Prod.snd = (List.range' (s + 1) n).map FieldIndex.Int := by
        have := ih (s + 1)
        rw [hrec] at this
        simpa using this
      rw [List.replicate_succ]
      simp [fold_fields, hf, hrec, List.range'_succ, hr]

/-- C5: an aggregate of `N` unnamed fields gets field identities exactly
`0..N-1` in declaration order, and `fold_variant_data` resets the per-scope
field counter to 0 at the start of every aggregate body, whatever value
`idx0` a sibling aggregate left in it. -/
theorem c5_positional_field_identities :
    ∀ (cfg : ScopeCheckConfig) (N idx0 : Nat),
      (∀ i s, lookup_field cfg.struct_cfg.fields (FieldIndex.Int i)
        ≠ some (XCheckType.Djb2 s)) →
      (fold_variant_data cfg idx0 (List.replicate N blank_field)).map
          (·.map Prod.snd)
        = some ((List.range N).map FieldIndex.Int) := by
  intro cfg N idx0 h
  rw [List.range_eq_range']
  exact fold_fields_replicate cfg h N 0

/-- Witness for C5: three unnamed fields, stale counter 7, identities 0,1,2. -/
theorem c5_witness :
    (fold_variant_data ScopeCheckConfig.new 7 (List.replicate 3 blank_field)).map
        (·.map Prod.snd)
      = some ((List.range 3).map FieldIndex.Int) :=
  c5_positional_field_identities ScopeCheckConfig.new 3 7 (by
    intro i s
    simp [lookup_field, ScopeCheckConfig.new, StructCheckConfig.initial])

/-- Helper for C8: a marker produced by the translation is never the inline
`cross_check` attribute. -/
theorem xcheck_hash_attr_not_cross_check (d : XCheckType) (a : Option Attr)
    (h : xcheck_hash_attr d = some a) :
    ∀ b ∈ a.toList, b.is_cross_check = false := by
  cases d <;> simp [xcheck_hash_attr] at h <;> subst h <;>
    simp [Attr.is_cross_check]

/-- C8: `fold_struct_field` translates the resolved field directive into
exactly one generated marker by the fixed mapping (Default → no marker,
AsType → compare-as-type, None/Disabled → exclude, Fixed → fixed-hash,
Custom → custom-hash, reserved Djb2 → hard failure), removes the original
inline `#[cross_check]` directive from the field's attributes, and on a
3-field tuple struct whose external configuration excludes field 1 it
attaches the exclude marker to exactly field 1. -/
theorem c8_field_marker_translation :
    (∀ idx : Nat, fold_struct_field ScopeCheckConfig.new idx
        { ident := none, attrs := [Attr.cross_check XCheckType.Default] }
      = some ({ ident := none, attrs := [] }, FieldIndex.Int idx, idx + 1)) ∧
    (∀ (idx : Nat) (ty : String), fold_struct_field ScopeCheckConfig.new idx
        { ident := none, attrs := [Attr.cross_check (XCheckType.AsType ty)] }
      = some ({ ident := none,
                attrs := [Attr.cross_check_hash (HashMarker.as_type ty)] },
              FieldIndex.Int idx, idx + 1)) ∧
    (∀ idx : Nat, fold_struct_field ScopeCheckConfig.new idx
        { ident := none, attrs := [Attr.cross_check XCheckType.None] }
      = some ({ ident := none,
                attrs := [Attr.cross_check_hash HashMarker.none_marker] },
              FieldIndex.Int idx, idx + 1)) ∧
    (∀ idx : Nat, fold_struct_field ScopeCheckConfig.new idx
        { ident := none, attrs := [Attr.cross_check XCheckType.Disabled] }
      = some ({ ident := none,
                attrs := [Attr.cross_check_hash HashMarker.none_marker] },
              FieldIndex.Int idx, idx + 1)) ∧
    (∀ (idx v : Nat), fold_struct_field ScopeCheckConfig.new idx
        { ident := none, attrs := [Attr.cross_check (XCheckType.Fixed v)] }
      = some ({ ident := none,
                attrs := [Attr.cross_check_hash (HashMarker.fixed_hash v)] },
              FieldIndex.Int idx, idx + 1)) ∧
    (∀ (idx : Nat) (e : String), fold_struct_field ScopeCheckConfig.new idx
        { ident := none, attrs := [Attr.cross_check (XCheckType.Custom e)] }
      = some ({ ident := none,
                attrs := [Attr.cross_check_hash (HashMarker.custom_hash e)] },
              FieldIndex.Int idx, idx + 1)) ∧
    (∀ (idx : Nat) (s : String), fold_struct_field ScopeCheckConfig.new idx
        { ident := none, attrs := [Attr.cross_check (XCheckType.Djb2 s)] }
      = none) ∧
    (∀ (cfg : ScopeCheckConfig) (idx : Nat) (sf : StructField)
      (out : StructField × FieldIndex × Nat),
      fold_struct_field cfg idx sf = some out →
      ∀ d : XCheckType, Attr.cross_check d ∉ out.1.attrs) ∧
    (fold_variant_data cfg_tuple3 0 [blank_field, blank_field, blank_field]
      = some [(blank_field, FieldIndex.Int 0),
              ({ ident := none,
                 attrs := [Attr.cross_check_hash HashMarker.none_marker] },
               FieldIndex.Int 1),
              (blank_field, FieldIndex.Int 2)]) := by
  refine ⟨fun idx => rfl, fun idx ty => rfl, fun idx => rfl, fun idx => rfl,
    fun idx v => rfl, fun idx e => rfl, fun idx s => rfl, ?_, by decide⟩
  intro cfg idx sf out hout d hmem
  unfold fold_struct_field at hout
  obtain ⟨ha, hha, hout'⟩ := Option.map_eq_some'.mp hout
  have hattrs : out.1.attrs
      = sf.attrs.filter (fun a => !a.is_cross_check) ++ ha.toList := by
    rw [← hout']
  rw [hattrs] at hmem
  rcases List.mem_append.mp hmem with hmf | hmt
  · have := (List.mem_filter.mp hmf).2
    simp [Attr.is_cross_check] at this
  · revert hmt
    cases hresolved : resolve_field_xcheck
        (lookup_field cfg.struct_cfg.fields
          (match sf.ident with
           | some s => (FieldIndex.from_str s, idx)
           | none => (FieldIndex.Int idx, idx + 1)).1)
        (parse_field_attr sf.attrs) with
    | none =>
      rw [hresolved] at hha
      simp at hha
      subst hha
      simp
    | some dd =>
      rw [hresolved] at hha
      intro hmt
      have := xcheck_hash_attr_not_cross_check dd ha hha _ hmt
      simp [Attr.is_cross_check] at this

/-- Witness for C8: the removal clause at a concrete folded field. -/
theorem c8_witness :
    Attr.cross_check XCheckType.Default ∉
      ({ ident := none, attrs := [] } : StructField).attrs :=
  c8_field_marker_translation.2.2.2.2.2.2.2.1 ScopeCheckConfig.new 0
    { ident := none, attrs := [Attr.cross_check XCheckType.Default] }
    ({ ident := none, attrs := [] }, FieldIndex.Int 0, 1) (by decide)
    XCheckType.Default

/-- C9: the two hasher type aliases are declared on every rewritten
function body, independent of the `enabled` flag (falling back to the
engine defaults when the scope leaves them unset); and when the effective
`enabled` flag is false the body is otherwise returned unchanged — no
entry, exit, argument, or return checks are injected. -/
theorem c9_aliases_always_disabled_unchanged :
    ∀ (β : Type) (dflt : String × String) (cfg : ScopeCheckConfig)
      (fn_ident : String) (inputs : List Pat) (output : Option String)
      (block : β),
      (∀ fb : FnBody β,
        build_function_xchecks dflt cfg fn_ident inputs output block
            = Except.ok fb →
          fb.ahasherAlias = (get_hasher_pair dflt cfg).1 ∧
          fb.shasherAlias = (get_hasher_pair dflt cfg).2) ∧
      (cfg.inherited.enabled = false →
        build_function_xchecks dflt cfg fn_ident inputs output block
          = Except.ok { ahasherAlias := (get_hasher_pair dflt cfg).1,
                        shasherAlias := (get_hasher_pair dflt cfg).2,
                        checked := CheckedBlock.original block }) := by
  intro β dflt cfg fn_ident inputs output block
  constructor
  · intro fb hfb
    unfold build_function_xchecks at hfb
    cases hcb : build_checked_block (β := β) cfg fn_ident inputs output block with
    | error e =>
      rw [hcb] at hfb
      simp [Except.map] at hfb
    | ok cb =>
      rw [hcb] at hfb
      simp [Except.map] at hfb
      subst hfb
      exact ⟨rfl, rfl⟩
  · intro he
    simp [build_function_xchecks, build_checked_block, he, Except.map]

/-- Witness for C9 at a concrete disabled scope. -/
theorem c9_witness :
    build_function_xchecks ("JodyHasher", "SimpleHasher") cfg_disabled "f"
        [Pat.ident "x"] (some "i32") (0 : Nat)
      = Except.ok
          { ahasherAlias :=
              (get_hasher_pair ("JodyHasher", "SimpleHasher") cfg_disabled).1,
            shasherAlias :=
              (get_hasher_pair ("JodyHasher", "SimpleHasher") cfg_disabled).2,
            checked := CheckedBlock.original (0 : Nat) } :=
  (c9_aliases_always_disabled_unchanged Nat ("JodyHasher", "SimpleHasher")
    cfg_disabled "f" [Pat.ident "x"] (some "i32") 0).2 (by decide)

/-- Helper for C2: a check-producing directive yields exactly one check
statement. -/
theorem build_xcheck_of_producesCheck {β : Type} {d : XCheckType}
    (h : producesCheck d = true) (tag : XCheckTag) (val : String) :
    build_xcheck (β := β) d tag val
      = Except.ok (some (BStmt.xcheck tag val d)) := by
  cases d <;> simp_all [producesCheck, build_xcheck]

/-- Helper for C2: on identifier arguments with check-producing resolved
directives, the argument loop yields one check per argument, in order. -/
theorem build_arg_xchecks_idents {β : Type} (cfg : ScopeCheckConfig) :
    ∀ (names : List String),
      (∀ n ∈ names, producesCheck (resolved_arg_directive cfg n) = true) →
      build_arg_xchecks (β := β) cfg (names.map Pat.ident)
        = Except.ok (names.map fun n =>
            BStmt.xcheck XCheckTag.FunctionArg n (resolved_arg_directive cfg n)) := by
  intro names
  induction names with
  | nil =>
    intro h
    rfl
  | cons n ns ih =>
    intro h
    have hn := build_xcheck_of_producesCheck (β := β) (h n (by simp))
      XCheckTag.FunctionArg n
    have hns := ih fun m hm => h m (List.mem_cons_of_mem _ hm)
    simp [build_arg_xchecks, build_arg_xcheck, hn, hns, Bind.bind, Except.bind]

/-- Helper for C2: executing a run of pure check statements appends their
events and leaves the closure and captured result untouched. -/
theorem foldl_exec_checks {β V : Type} (ev : β → V) :
    ∀ (l : List (BStmt β)) (st : RunState β V),
      (∀ s ∈ l, (stmt_event s).isSome) →
      l.foldl (exec_stmt ev) st
        = { fnBody := st.fnBody, fnResult := st.fnResult,
            events := st.events ++ l.filterMap stmt_event } := by
  intro l
  induction l with
  | nil =>
    intro st h
    simp
  | cons s ss ih =>
    intro st h
    have hs := h s (by simp)
    have hss : ∀ x ∈ ss, (stmt_event x).isSome :=
      fun x hx => h x (List.mem_cons_of_mem _ hx)
    cases s with
    | xcheck tag val d =>
      simp only [List.foldl_cons, exec_stmt]
      rw [ih _ hss]
      simp [stmt_event]
    | extraXcheck tag e =>
      simp only [List.foldl_cons, exec_stmt]
      rw [ih _ hss]
      simp [stmt_event]
    | declareFnBody rty b =>
      simp [stmt_event] at hs
    | callFnBody =>
      simp [stmt_event] at hs

/-- Helper for C2: running an instrumented block of the generated shape —
checks, then the closure declaration and call, then checks — emits the two
check runs' events in order and yields the captured original result. -/
theorem run_instrumented_shape {β V : Type} (ev : β → V)
    (pre post : List (BStmt β)) (rty : String) (block : β)
    (hpre : ∀ s ∈ pre, (stmt_event s).isSome)
    (hpost : ∀ s ∈ post, (stmt_event s).isSome) :
    run_checked_block ev (CheckedBlock.instrumented
        (pre ++ [BStmt.declareFnBody rty block, BStmt.callFnBody] ++ post))
      = (pre.filterMap stmt_event ++ post.filterMap stmt_event,
         some (ev block)) := by
  simp only [run_checked_block]
  rw [List.foldl_append, List.foldl_append]
  rw [foldl_exec_checks ev pre _ hpre]
  simp only [List.foldl_cons, List.foldl_nil, exec_stmt, Option.map_some]
  rw [foldl_exec_checks ev post _ hpost]
  simp

/-- Helper for C2: events of a run of argument checks. -/
theorem filterMap_stmt_event_xchecks {β : Type} (tag : XCheckTag)
    (g : String → XCheckType) :
    ∀ names : List String,
      List.filterMap (stmt_event (β := β) ∘ fun n => BStmt.xcheck tag n (g n))
          names
        = names.map fun n => (tag, n) := by
  intro names
  induction names with
  | nil => rfl
  | cons n ns ih => simp [stmt_event, Function.comp, ih]

/-- Helper for C2: events of a run of extra checks. -/
theorem filterMap_stmt_event_extra {β : Type} :
    ∀ extra : List ExtraXCheck,
      List.filterMap
          (stmt_event (β := β) ∘ fun ex => BStmt.extraXcheck ex.tag ex.custom)
          extra
        = extra.map fun ex => (ex.tag, ex.custom) := by
  intro extra
  induction extra with
  | nil => rfl
  | cons ex exs ih => simp [stmt_event, Function.comp, ih]

/-- C2: for an enabled function whose arguments are simple identifiers and
whose entry/exit/return and per-argument directives produce checks, the
rewritten body performs, in order: entry check, one check per argument,
extra entry expressions, evaluation of the original body captured under
the declared return type, exit check, return-value check, extra exit
expressions — and yields exactly the original body's value. -/
theorem c2_instrumented_order_and_value :
    ∀ (β V : Type) (ev : β → V) (dflt : String × String)
      (cfg : ScopeCheckConfig) (fn_ident : String) (names : List String)
      (output : Option String) (block : β),
      cfg.inherited.enabled = true →
      producesCheck cfg.inherited.entry = true →
      producesCheck cfg.inherited.exit = true →
      producesCheck cfg.inherited.ret = true →
      (∀ n ∈ names, producesCheck (resolved_arg_directive cfg n) = true) →
      (build_function_xchecks dflt cfg fn_ident (names.map Pat.ident) output
          block).map (fun fb => run_checked_block ev fb.checked)
        = Except.ok
            ([(XCheckTag.FunctionEntry, fn_ident)] ++
             (names.map fun n => (XCheckTag.FunctionArg, n)) ++
             (cfg.function_cfg.entry_extra.map fun ex => (ex.tag, ex.custom)) ++
             ([(XCheckTag.FunctionExit, fn_ident),
               (XCheckTag.FunctionReturn, "val_ref")] ++
              (cfg.function_cfg.exit_extra.map fun ex => (ex.tag, ex.custom))),
             some (ev block)) := by
  intro β V ev dflt cfg fn_ident names output block he hent hex hret hargs
  have hentry := build_xcheck_of_producesCheck (β := β) hent
    XCheckTag.FunctionEntry fn_ident
  have hexit := build_xcheck_of_producesCheck (β := β) hex
    XCheckTag.FunctionExit fn_ident
  have hret2 := build_xcheck_of_producesCheck (β := β) hret
    XCheckTag.FunctionReturn "val_ref"
  have hargs2 := build_arg_xchecks_idents (β := β) cfg names hargs
  have hcb : build_checked_block (β := β) cfg fn_ident (names.map Pat.ident)
      output block
      = Except.ok (CheckedBlock.instrumented (
          ([BStmt.xcheck XCheckTag.FunctionEntry fn_ident cfg.inherited.entry] ++
           (names.map fun n => BStmt.xcheck XCheckTag.FunctionArg n
             (resolved_arg_directive cfg n)) ++
           build_extra_xchecks cfg.function_cfg.entry_extra) ++
          [BStmt.declareFnBody (output.getD "()") block, BStmt.callFnBody] ++
          ([BStmt.xcheck XCheckTag.FunctionExit fn_ident cfg.inherited.exit] ++
           ([BStmt.xcheck XCheckTag.FunctionReturn "val_ref" cfg.inherited.ret] ++
            build_extra_xchecks cfg.function_cfg.exit_extra)))) := by
    simp only [build_checked_block, he, if_true, build_ident_xcheck, hentry,
      hexit, hret2, hargs2, bind, Except.bind, Option.toList]
    simp [List.append_assoc]
  have hpre : ∀ s ∈ ([BStmt.xcheck XCheckTag.FunctionEntry fn_ident
        cfg.inherited.entry] ++
      (names.map fun n => BStmt.xcheck XCheckTag.FunctionArg n
        (resolved_arg_directive cfg n)) ++
      build_extra_xchecks (β := β) cfg.function_cfg.entry_extra),
      (stmt_event s).isSome := by
    intro s hs
    simp only [List.mem_append, List.mem_map, List.mem_singleton,
      build_extra_xchecks] at hs
    rcases hs with (rfl | ⟨n, hn, rfl⟩) | ⟨ex, hx, rfl⟩ <;> simp [stmt_event]
  have hpost : ∀ s ∈ ([BStmt.xcheck XCheckTag.FunctionExit fn_ident
        cfg.inherited.exit] ++
      ([BStmt.xcheck XCheckTag.FunctionReturn "val_ref" cfg.inherited.ret] ++
       build_extra_xchecks (β := β) cfg.function_cfg.exit_extra)),
      (stmt_event s).isSome := by
    intro s hs
    simp only [List.mem_append, List.mem_map, List.mem_singleton,
      build_extra_xchecks] at hs
    rcases hs with rfl | (rfl | ⟨ex, hx, rfl⟩) <;> simp [stmt_event]
  rw [build_function_xchecks, hcb]
  simp only [Except.map]
  rw [run_instrumented_shape ev _ _ _ _ hpre hpost]
  simp [List.filterMap_append, build_extra_xchecks,
    filterMap_stmt_event_xchecks, filterMap_stmt_event_extra, stmt_event,
    List.append_assoc]

/-- Witness for C2, spec scenario 1: `f(x: i32) -> i32 { x + 1 }` under the
default configuration; the instrumented run emits entry, argument, exit and
return checks in order and returns 6 for input 5. -/
theorem c2_witness :
    (build_function_xchecks ("JodyHasher", "SimpleHasher") ScopeCheckConfig.new
        "f" (["x"].map Pat.ident) (some "i32") (5 : Int)).map
        (fun fb => run_checked_block (fun v => v + 1) fb.checked)
      = Except.ok
          ([(XCheckTag.FunctionEntry, "f")] ++
           (["x"].map fun n => (XCheckTag.FunctionArg, n)) ++
           (ScopeCheckConfig.new.function_cfg.entry_extra.map
             fun ex => (ex.tag, ex.custom)) ++
           ([(XCheckTag.FunctionExit, "f"),
             (XCheckTag.FunctionReturn, "val_ref")] ++
            (ScopeCheckConfig.new.function_cfg.exit_extra.map
              fun ex => (ex.tag, ex.custom))),
           some ((fun v : Int => v + 1) 5)) :=
  c2_instrumented_order_and_value Int Int (fun v => v + 1)
    ("JodyHasher", "SimpleHasher") ScopeCheckConfig.new "f" ["x"] (some "i32")
    5 (by decide) (by decide) (by decide) (by decide) (by decide)

end XPlugin
